import Mathlib

/-!
Shallow embedding of `src/Sources/libplist/tools/plistutil.c` (the `plistutil`
command-line plist converter) and verification of its specification.

The property-list library itself (`plist.h` / libplist proper) is not part of
the sources; following the spec it is treated as an external collaborator and
modelled as an opaque record of operations (`PlistLib`).  Everything with real
control flow — argument parsing, input acquisition, the conversion dispatcher,
the output writer and the outcome-to-exit-status translation — is translated
directly from `plistutil.c`.
-/

namespace Plistutil

/-! ### Library error codes

Modelled from the spec: the result codes of the external plist library
(`plist.h` is not under the sources).  The tool only distinguishes
`PLIST_ERR_SUCCESS` (0) and `PLIST_ERR_FORMAT`; `PLIST_ERR_UNKNOWN` is the
initial sentinel value of `input_res`/`output_res` in `main` (line 151-152). -/

def PLIST_ERR_SUCCESS : Int := 0

def PLIST_ERR_FORMAT : Int := -2

def PLIST_ERR_UNKNOWN : Int := -255

/-! ### Options (`options_t`, plistutil.c lines 41-45)

`fmts 0 = undef, 1 = bin, 2 = xml, 3 = json`.  `in_file`/`out_file` are
`char *` pointers that may stay NULL, hence `Option String`. -/

structure options_t where
  in_file : Option String
  out_file : Option String
  debug : Nat
  in_fmt : Nat
  out_fmt : Nat
deriving DecidableEq, Repr

/-- The zero-initialised options record produced by `calloc` (line 75). -/
def options_init : options_t :=
  { in_file := none, out_file := none, debug := 0, in_fmt := 0, out_fmt := 0 }

/-- Result of `parse_arguments`: either an options record, or NULL (which makes
`main` print usage and return 0), or the `-v` path which prints the version and
calls `exit(EXIT_SUCCESS)` directly. -/
inductive ParseResult where
  | opts (o : options_t)
  | usage
  | version
deriving DecidableEq, Repr

/-- The `-f` argument classification of lines 109-119: `strncmp(v, "bin", 3)`
etc., i.e. prefix matching, tried in the order bin, xml, json.
`strncmp(s, t, n) == 0` for a NUL-free `t` of length `n` is equality of the
first `n` characters of `s` with `t` (a shorter `s` differs at its
terminator). -/
def fmt_code (s : String) : Option Nat :=
  if s.toList.take 3 = "bin".toList then some 1
  else if s.toList.take 3 = "xml".toList then some 2
  else if s.toList.take 4 = "json".toList then some 3
  else none

/-- The argument loop of `parse_arguments` (lines 78-143), processing
`argv[1..]` left to right with one token of lookahead for `-i`/`-o`/`-f`. -/
def parse_arguments_loop (o : options_t) : List String → ParseResult
  | [] => ParseResult.opts o
  | a :: rest =>
    if a = "--infile" ∨ a = "-i" then
      match rest with
      | [] => ParseResult.usage
      | v :: rest2 => parse_arguments_loop { o with in_file := some v } rest2
    else if a = "--outfile" ∨ a = "-o" then
      match rest with
      | [] => ParseResult.usage
      | v :: rest2 => parse_arguments_loop { o with out_file := some v } rest2
    else if a = "--format" ∨ a = "-f" then
      match rest with
      | [] => ParseResult.usage
      | v :: rest2 =>
        match fmt_code v with
        | some n => parse_arguments_loop { o with out_fmt := n } rest2
        | none => ParseResult.usage
    else if a = "--debug" ∨ a = "-d" then
      parse_arguments_loop { o with debug := 1 } rest
    else if a = "--help" ∨ a = "-h" then
      ParseResult.usage
    else if a = "--version" ∨ a = "-v" then
      ParseResult.version
    else
      ParseResult.usage

/-- Running `parse_arguments(argc, argv)` on the argument list `argv[1..]`. -/
def parse_arguments (args : List String) : ParseResult :=
  parse_arguments_loop options_init args

/-! ### Standard-stream input acquisition (lines 169-225)

The C code reads one byte at a time with `read(STDIN_FILENO, &ch, 1)` into a
buffer of initial capacity 4096, growing the capacity by 4096 whenever the next
byte would not fit (line 183-186), then, after end of stream, reallocating to
capacity+1 only when the buffer is exactly full (line 198-200), and finally
storing a terminating null byte at index `read_size` (line 209). -/

structure StdinRead where
  read_size : Nat
  read_capacity : Nat
  buf : List UInt8
deriving DecidableEq, Repr

/-- The `while(read(...) > 0)` loop of lines 181-197: grow the capacity by
4096 when the next byte would not fit (lines 183-194), then store the byte
(lines 195-196). `buf` holds the bytes stored so far (indices
`0..read_size-1` of `plist_entire`). -/
def read_stdin_loop : StdinRead → List UInt8 → StdinRead
  | st, [] => st
  | st, ch :: rest =>
    if st.read_size ≥ st.read_capacity then
      read_stdin_loop
        { read_size := st.read_size + 1,
          read_capacity := st.read_capacity + 4096,
          buf := st.buf ++ [ch] } rest
    else
      read_stdin_loop
        { st with buf := st.buf ++ [ch], read_size := st.read_size + 1 } rest

/-- The end-of-stream reallocation of lines 198-208 (performed only when the
buffer is exactly full) followed by storing the terminating null byte at
index `read_size` (line 209). -/
def read_stdin_finish (st : StdinRead) : StdinRead :=
  if st.read_size ≥ st.read_capacity then
    { st with read_capacity := st.read_capacity + 1, buf := st.buf ++ [0] }
  else
    { st with buf := st.buf ++ [0] }

/-- The whole stdin acquisition (lines 169-209): run the read loop from the
freshly `malloc`ed 4096-byte buffer and finish. -/
def read_stdin (input : List UInt8) : StdinRead :=
  read_stdin_finish
    (read_stdin_loop { read_size := 0, read_capacity := 4096, buf := [] } input)

/-! ### The external plist library

Modelled from the spec: the library operations declared in `plist.h` (not under
the sources) — a binary-format sniff predicate, the parse operations
(returning a result code and a document handle) and the serialize operations
(returning a result code and, when they succeed, an output buffer; the
`plist_out` pointer stays NULL otherwise).  `Doc` stands for the opaque
`plist_t` handle type. -/

structure PlistLib (Doc : Type) where
  is_binary : List UInt8 → Nat → Bool
  from_bin : List UInt8 → Nat → Int × Doc
  from_xml : List UInt8 → Nat → Int × Doc
  from_memory : List UInt8 → Nat → Int × Doc
  to_bin : Doc → Int × Option (List UInt8)
  to_xml : Doc → Int × Option (List UInt8)
  to_json : Doc → Int × Option (List UInt8)

/-- Observable calls made by `main` to the outside world, in order. -/
inductive Event where
  | evReadStdin
  | evOpenInput (name : String)
  | evIsBinary
  | evFromBin
  | evFromXml
  | evFromMemory
  | evToBin
  | evToXml
  | evToJson
  | evWriteFile (name : String)
  | evWriteStdout
deriving DecidableEq, Repr

/-- Parse-operation events (`plist_from_bin`, `plist_from_xml`,
`plist_from_memory`). -/
def is_parse_event : Event → Bool
  | Event.evFromBin => true
  | Event.evFromXml => true
  | Event.evFromMemory => true
  | _ => false

/-- Serialize-operation events (`plist_to_bin`, `plist_to_xml`,
`plist_to_json`). -/
def is_serialize_event : Event → Bool
  | Event.evToBin => true
  | Event.evToXml => true
  | Event.evToJson => true
  | _ => false

/-- Output-writing events (`fwrite` to a file or to stdout). -/
def is_write_event : Event → Bool
  | Event.evWriteFile _ => true
  | Event.evWriteStdout => true
  | _ => false

/-- State of `main`'s conversion stage (lines 253-282): the two result codes
(initialised to `PLIST_ERR_UNKNOWN` at lines 151-152), the `plist_out`
buffer pointer (NULL unless a serialize operation succeeded and set it), and
the trace of library calls made. -/
structure ConvResult where
  input_res : Int
  output_res : Int
  plist_out : Option (List UInt8)
  trace : List Event
deriving DecidableEq, Repr

/-- The conversion dispatcher, lines 253-282 of `main`.  `data`/`read_size`
are the `plist_entire` buffer contents and the byte count handed to the
library. -/
def convert {Doc : Type} (lib : PlistLib Doc) (out_fmt : Nat)
    (data : List UInt8) (read_size : Nat) : ConvResult :=
  if out_fmt = 0 then
    -- convert from binary to xml or vice-versa
    if lib.is_binary data read_size then
      let p := lib.from_bin data read_size
      if p.1 = PLIST_ERR_SUCCESS then
        let q := lib.to_xml p.2
        { input_res := p.1, output_res := q.1, plist_out := q.2,
          trace := [Event.evIsBinary, Event.evFromBin, Event.evToXml] }
      else
        { input_res := p.1, output_res := PLIST_ERR_UNKNOWN, plist_out := none,
          trace := [Event.evIsBinary, Event.evFromBin] }
    else
      let p := lib.from_xml data read_size
      if p.1 = PLIST_ERR_SUCCESS then
        let q := lib.to_bin p.2
        { input_res := p.1, output_res := q.1, plist_out := q.2,
          trace := [Event.evIsBinary, Event.evFromXml, Event.evToBin] }
      else
        { input_res := p.1, output_res := PLIST_ERR_UNKNOWN, plist_out := none,
          trace := [Event.evIsBinary, Event.evFromXml] }
  else
    let p := lib.from_memory data read_size
    if p.1 = PLIST_ERR_SUCCESS then
      if out_fmt = 1 then
        let q := lib.to_bin p.2
        { input_res := p.1, output_res := q.1, plist_out := q.2,
          trace := [Event.evFromMemory, Event.evToBin] }
      else if out_fmt = 2 then
        let q := lib.to_xml p.2
        { input_res := p.1, output_res := q.1, plist_out := q.2,
          trace := [Event.evFromMemory, Event.evToXml] }
      else if out_fmt = 3 then
        let q := lib.to_json p.2
        { input_res := p.1, output_res := q.1, plist_out := q.2,
          trace := [Event.evFromMemory, Event.evToJson] }
      else
        { input_res := p.1, output_res := PLIST_ERR_UNKNOWN, plist_out := none,
          trace := [Event.evFromMemory] }
    else
      { input_res := p.1, output_res := PLIST_ERR_UNKNOWN, plist_out := none,
        trace := [Event.evFromMemory] }

/-- Destination actually written by the output stage. -/
inductive OutDest where
  | file (name : String)
  | standard
deriving DecidableEq, Repr

/-- Observable outcome of one `main` run. -/
structure RunResult where
  exitc : Int
  usage_printed : Bool
  version_printed : Bool
  converted : Bool
  input_res : Int
  output_res : Int
  plist_out : Option (List UInt8)
  written : Option (OutDest × List UInt8)
  trace : List Event
deriving DecidableEq, Repr

/-- A run that terminated on an early error path of `main`, before the
conversion stage. -/
def early_exit (code : Int) (tr : List Event) : RunResult :=
  { exitc := code, usage_printed := false, version_printed := false,
    converted := false, input_res := PLIST_ERR_UNKNOWN,
    output_res := PLIST_ERR_UNKNOWN, plist_out := none, written := none,
    trace := tr }

/-- The outcome translation of lines 306-321: the value `ret` takes from the
pair `(input_res, output_res)`. -/
def outcome_exit (input_res output_res : Int) : Int :=
  if input_res = PLIST_ERR_SUCCESS then
    if output_res = PLIST_ERR_SUCCESS then 0
    else if output_res = PLIST_ERR_FORMAT then 2
    else 1
  else 1

/-- A run that went through the outcome translation of lines 306-324. -/
def finish (c : ConvResult) (w : Option (OutDest × List UInt8))
    (tr : List Event) : RunResult :=
  { exitc := outcome_exit c.input_res c.output_res, usage_printed := false,
    version_printed := false, converted := true, input_res := c.input_res,
    output_res := c.output_res, plist_out := c.plist_out, written := w,
    trace := tr }

/-- Conversion stage, output-writing stage (lines 286-304, including the fatal
`return 1` when the output file cannot be opened, lines 290-295) and outcome
translation, given the acquired input. -/
def after_input {Doc : Type} (lib : PlistLib Doc) (o : options_t)
    (data : List UInt8) (read_size : Nat) (can_write : String → Bool)
    (tr : List Event) : RunResult :=
  let c := convert lib o.out_fmt data read_size
  match c.plist_out with
  | some outb =>
    match o.out_file with
    | some name =>
      if name = "-" then
        finish c (some (OutDest.standard, outb))
          (tr ++ c.trace ++ [Event.evWriteStdout])
      else if can_write name then
        finish c (some (OutDest.file name, outb))
          (tr ++ c.trace ++ [Event.evWriteFile name])
      else
        -- ERROR: Could not open output file; return 1
        { exitc := 1, usage_printed := false, version_printed := false,
          converted := true, input_res := c.input_res,
          output_res := c.output_res, plist_out := c.plist_out,
          written := none, trace := tr ++ c.trace }
    | none =>
      finish c (some (OutDest.standard, outb))
        (tr ++ c.trace ++ [Event.evWriteStdout])
  | none => finish c none (tr ++ c.trace)

/-- The body of `main` after `parse_arguments` succeeded (lines 169-324).
The outside world is given by `stdin_bytes` (the bytes on the standard
stream), `fs` (contents of readable files, `none` when `fopen` fails),
`can_write` (whether `fopen(..., "wb")` succeeds) and `stdin_err` (the
`ferror(stdin)` flag of line 212). -/
def run_with_options {Doc : Type} (lib : PlistLib Doc) (o : options_t)
    (stdin_bytes : List UInt8) (fs : String → Option (List UInt8))
    (can_write : String → Bool) (stdin_err : Bool) : RunResult :=
  match o.in_file with
  | some name =>
    if name = "-" then
      -- `!strcmp(options->in_file, "-")`: read from stdin
      let st := read_stdin stdin_bytes
      if stdin_err then early_exit 1 [Event.evReadStdin]
      else if st.read_size < 8 then early_exit 1 [Event.evReadStdin]
      else after_input lib o (st.buf.take st.read_size) st.read_size can_write
        [Event.evReadStdin]
    else
      match fs name with
      | none => early_exit 1 [Event.evOpenInput name]
      | some content =>
        if content.length < 8 then early_exit (-1) [Event.evOpenInput name]
        else after_input lib o content content.length can_write
          [Event.evOpenInput name]
  | none =>
    let st := read_stdin stdin_bytes
    if stdin_err then early_exit 1 [Event.evReadStdin]
    else if st.read_size < 8 then early_exit 1 [Event.evReadStdin]
    else after_input lib o (st.buf.take st.read_size) st.read_size can_write
      [Event.evReadStdin]

/-- The whole of `main` (lines 148-325) on the argument list `argv[1..]`. -/
def plistutil_main {Doc : Type} (lib : PlistLib Doc) (args : List String)
    (stdin_bytes : List UInt8) (fs : String → Option (List UInt8))
    (can_write : String → Bool) (stdin_err : Bool) : RunResult :=
  match parse_arguments args with
  | ParseResult.usage =>
    { exitc := 0, usage_printed := true, version_printed := false,
      converted := false, input_res := PLIST_ERR_UNKNOWN,
      output_res := PLIST_ERR_UNKNOWN, plist_out := none, written := none,
      trace := [] }
  | ParseResult.version =>
    { exitc := 0, usage_printed := false, version_printed := true,
      converted := false, input_res := PLIST_ERR_UNKNOWN,
      output_res := PLIST_ERR_UNKNOWN, plist_out := none, written := none,
      trace := [] }
  | ParseResult.opts o => run_with_options lib o stdin_bytes fs can_write stdin_err

/-! ### Concrete instantiations used to exercise the model -/

/-- A library whose operations all succeed (the sniff predicate reports
binary). -/
def okLib : PlistLib Unit :=
  { is_binary := fun _ _ => true,
    from_bin := fun _ _ => (PLIST_ERR_SUCCESS, ()),
    from_xml := fun _ _ => (PLIST_ERR_SUCCESS, ()),
    from_memory := fun _ _ => (PLIST_ERR_SUCCESS, ()),
    to_bin := fun _ => (PLIST_ERR_SUCCESS, some [98, 112, 108]),
    to_xml := fun _ => (PLIST_ERR_SUCCESS, some [60]),
    to_json := fun _ => (PLIST_ERR_SUCCESS, some [123]) }

/-- A library whose parse operations all fail with `PLIST_ERR_PARSE` (-3). -/
def parseFailLib : PlistLib Unit :=
  { is_binary := fun _ _ => false,
    from_bin := fun _ _ => (-3, ()),
    from_xml := fun _ _ => (-3, ()),
    from_memory := fun _ _ => (-3, ()),
    to_bin := fun _ => (PLIST_ERR_SUCCESS, some [1]),
    to_xml := fun _ => (PLIST_ERR_SUCCESS, some [1]),
    to_json := fun _ => (PLIST_ERR_SUCCESS, some [1]) }

/-- An eight-byte standard-input payload. -/
def stdin8 : List UInt8 := List.replicate 8 0

/-- The twelve option strings `parse_arguments` recognizes. -/
def is_recognized_flag (s : String) : Bool :=
  s = "--infile" || s = "-i" || s = "--outfile" || s = "-o" ||
  s = "--format" || s = "-f" || s = "--debug" || s = "-d" ||
  s = "--help" || s = "-h" || s = "--version" || s = "-v"

/-- Overwrite the `debug` field of a successful parse result. -/
def debug_set (d : Nat) : ParseResult → ParseResult
  | ParseResult.opts o => ParseResult.opts { o with debug := d }
  | r => r

/-- A filesystem on which every `fopen(..., "rb")` fails. -/
def noReadFs : String → Option (List UInt8) := fun _ => none

/-- Every output destination can be opened. -/
def allWriteFs : String → Bool := fun _ => true

/-- No output destination can be opened. -/
def noWriteFs : String → Bool := fun _ => false

/-! ### The read loop invariant -/

/-- Capacity of the stdin buffer after the read loop has stored `n` bytes:
4096 initially, bumped by 4096 each time a byte would not have fit. -/
def stdin_cap (n : Nat) : Nat := 4096 * ((n - 1) / 4096 + 1)

theorem stdin_cap_zero : stdin_cap 0 = 4096 := by norm_num [stdin_cap]

theorem read_stdin_loop_spec (l : List UInt8) : ∀ (k : Nat) (b : List UInt8),
    read_stdin_loop { read_size := k, read_capacity := stdin_cap k, buf := b } l =
      { read_size := k + l.length, read_capacity := stdin_cap (k + l.length),
        buf := b ++ l } := by
  induction l with
  | nil => intro k b; simp [read_stdin_loop]
  | cons ch rest ih =>
    intro k b
    rw [read_stdin_loop]
    by_cases h : k ≥ stdin_cap k
    · rw [if_pos h]
      have hcap : stdin_cap k + 4096 = stdin_cap (k + 1) := by
        simp only [stdin_cap] at h ⊢
        omega
      rw [hcap, ih (k + 1) (b ++ [ch])]
      have hlen : k + 1 + rest.length = k + (ch :: rest).length := by
        simp; omega
      rw [hlen]
      simp
    · rw [if_neg h]
      have hcap : stdin_cap k = stdin_cap (k + 1) := by
        simp only [stdin_cap] at h ⊢
        omega
      simp only
      rw [hcap, ih (k + 1) (b ++ [ch])]
      have hlen : k + 1 + rest.length = k + (ch :: rest).length := by
        simp; omega
      rw [hlen]
      simp

theorem read_stdin_spec (s : List UInt8) :
    read_stdin s =
      { read_size := s.length,
        read_capacity := if s.length ≥ stdin_cap s.length
          then stdin_cap s.length + 1 else stdin_cap s.length,
        buf := s ++ [0] } := by
  rw [read_stdin,
    show ({ read_size := 0, read_capacity := 4096, buf := [] } : StdinRead) =
      { read_size := 0, read_capacity := stdin_cap 0, buf := [] } from by
        rw [stdin_cap_zero],
    read_stdin_loop_spec s 0 []]
  simp only [read_stdin_finish, Nat.zero_add, List.nil_append]
  split
  · rfl
  · rfl

/-- Claim C7 (amended).  In the standard-stream case, bytes are read one at a
time into a buffer of initial capacity 4096 that grows by 4096 whenever the
next byte would overflow; at end of stream the buffer is enlarged to used
length + 1 *only when the used length has reached the capacity* (otherwise
the capacity is left unchanged), a terminating null byte is appended, and for
a stream of `n` bytes the payload holds exactly those `n` bytes in order
followed by a null byte. -/
theorem stdin_reader_spec (s : List UInt8) :
    (read_stdin s).buf = s ++ [0] ∧
    (read_stdin s).read_size = s.length ∧
    (read_stdin s).read_capacity =
      (if s.length ≠ 0 ∧ s.length % 4096 = 0 then s.length + 1
       else 4096 * (s.length / 4096) + 4096) := by
  rw [read_stdin_spec]
  refine ⟨rfl, rfl, ?_⟩
  simp only [stdin_cap]
  split_ifs <;> omega

/-- Claim C7 (counterexample to the claim as stated).  After a 10-byte stream
the buffer is *not* reduced to used length + 1 = 11: its capacity is still
4096. -/
theorem stdin_reader_no_shrink_counterexample :
    (read_stdin (List.replicate 10 65)).read_size = 10 ∧
    (read_stdin (List.replicate 10 65)).read_capacity = 4096 ∧
    (read_stdin (List.replicate 10 65)).read_capacity ≠ 10 + 1 := by
  refine ⟨?_, ?_, ?_⟩ <;> decide

/-! ### Claim C10: repeated flags, last occurrence wins -/

/-- Claim C10.  Each occurrence of `-i`/`-o`/`-f` (with an argument) merely
overwrites the corresponding options field and parsing continues, so when a
flag appears more than once the value used is the one from its last
occurrence, and the earlier occurrence causes no error: in particular a
doubled flag parses exactly as if the earlier occurrence were absent. -/
theorem repeated_flag_last_wins (o : options_t) (rest : List String)
    (v w : String) :
    (parse_arguments_loop o ("-i" :: v :: rest) =
      parse_arguments_loop { o with in_file := some v } rest) ∧
    (parse_arguments_loop o ("-i" :: v :: "-i" :: w :: rest) =
      parse_arguments_loop o ("-i" :: w :: rest)) ∧
    (parse_arguments_loop o ("-o" :: v :: rest) =
      parse_arguments_loop { o with out_file := some v } rest) ∧
    (parse_arguments_loop o ("-o" :: v :: "-o" :: w :: rest) =
      parse_arguments_loop o ("-o" :: w :: rest)) ∧
    (∀ nv : Nat, fmt_code v = some nv →
      parse_arguments_loop o ("-f" :: v :: rest) =
        parse_arguments_loop { o with out_fmt := nv } rest) ∧
    (∀ nv : Nat, fmt_code v = some nv →
      parse_arguments_loop o ("-f" :: v :: "-f" :: w :: rest) =
        parse_arguments_loop o ("-f" :: w :: rest)) := by
  refine ⟨?_, ?_, ?_, ?_, ?_, ?_⟩
  · simp [parse_arguments_loop]
  · simp [parse_arguments_loop]
  · simp [parse_arguments_loop]
  · simp [parse_arguments_loop]
  · intro nv hv; simp [parse_arguments_loop, hv]
  · intro nv hv; simp [parse_arguments_loop, hv]

/-- Claim C10 (witness).  `-f xml -f json` parses like `-f json` alone. -/
theorem repeated_flag_last_wins_witness :
    fmt_code "xml" = some 2 ∧
    parse_arguments_loop options_init ["-f", "xml", "-f", "json", "-i", "in"] =
      parse_arguments_loop options_init ["-f", "json", "-i", "in"] :=
  ⟨by decide,
    (repeated_flag_last_wins options_init ["-i", "in"] "xml" "json").2.2.2.2.2 2
      (by decide)⟩

/-! ### Single-token steps of the argument loop -/

theorem parse_loop_dash_d (o : options_t) (rest : List String) :
    parse_arguments_loop o ("-d" :: rest) =
      parse_arguments_loop { o with debug := 1 } rest := by
  rw [parse_arguments_loop.eq_def]; simp

theorem parse_loop_ddash_debug (o : options_t) (rest : List String) :
    parse_arguments_loop o ("--debug" :: rest) =
      parse_arguments_loop { o with debug := 1 } rest := by
  rw [parse_arguments_loop.eq_def]; simp

theorem parse_loop_dash_h (o : options_t) (rest : List String) :
    parse_arguments_loop o ("-h" :: rest) = ParseResult.usage := by
  rw [parse_arguments_loop.eq_def]; simp

theorem parse_loop_ddash_help (o : options_t) (rest : List String) :
    parse_arguments_loop o ("--help" :: rest) = ParseResult.usage := by
  rw [parse_arguments_loop.eq_def]; simp

theorem parse_loop_dash_v (o : options_t) (rest : List String) :
    parse_arguments_loop o ("-v" :: rest) = ParseResult.version := by
  rw [parse_arguments_loop.eq_def]; simp

theorem parse_loop_ddash_version (o : options_t) (rest : List String) :
    parse_arguments_loop o ("--version" :: rest) = ParseResult.version := by
  rw [parse_arguments_loop.eq_def]; simp

theorem parse_loop_unrecognized (o : options_t) (s : String)
    (rest : List String) (h : is_recognized_flag s = false) :
    parse_arguments_loop o (s :: rest) = ParseResult.usage := by
  simp only [is_recognized_flag, Bool.or_eq_false_iff,
    decide_eq_false_iff_not] at h
  obtain ⟨⟨⟨⟨⟨⟨⟨⟨⟨⟨⟨hA, hB⟩, hC⟩, hD⟩, hE⟩, hF⟩, hG⟩, hH⟩, hI⟩, hJ⟩, hK⟩,
    hL⟩ := h
  rw [parse_arguments_loop.eq_def]
  simp [hA, hB, hC, hD, hE, hF, hG, hH, hI, hJ, hK, hL]

/-! ### Claim C9: the debug flag has no behavioral effect -/

theorem parse_loop_debug (o : options_t) (rest : List String) :
    ∀ d : Nat, ∃ d2 : Nat,
      parse_arguments_loop { o with debug := d } rest =
        debug_set d2 (parse_arguments_loop o rest) := by
  induction o, rest using parse_arguments_loop.induct with
  | case1 o => intro d; exact ⟨d, rfl⟩
  | case2 o v h1 =>
    intro d
    rcases h1 with h | h <;> subst h <;>
      exact ⟨0, by simp [parse_arguments_loop, debug_set]⟩
  | case3 o v h1 w rest2 ih =>
    intro d
    obtain ⟨d2, hd⟩ := ih d
    rcases h1 with h | h <;> subst h <;>
      exact ⟨d2, by simpa [parse_arguments_loop] using hd⟩
  | case4 o v h1 h2 =>
    intro d
    rcases h2 with h | h <;> subst h <;>
      exact ⟨0, by simp [parse_arguments_loop, debug_set]⟩
  | case5 o v h1 h2 w rest2 ih =>
    intro d
    obtain ⟨d2, hd⟩ := ih d
    rcases h2 with h | h <;> subst h <;>
      exact ⟨d2, by simpa [parse_arguments_loop] using hd⟩
  | case6 o v h1 h2 h3 =>
    intro d
    rcases h3 with h | h <;> subst h <;>
      exact ⟨0, by simp [parse_arguments_loop, debug_set]⟩
  | case7 o v h1 h2 h3 w rest2 n hn ih =>
    intro d
    obtain ⟨d2, hd⟩ := ih d
    rcases h3 with h | h <;> subst h <;>
      exact ⟨d2, by simpa [parse_arguments_loop, hn] using hd⟩
  | case8 o v h1 h2 h3 w rest2 hn =>
    intro d
    rcases h3 with h | h <;> subst h <;>
      exact ⟨0, by simp [parse_arguments_loop, hn, debug_set]⟩
  | case9 o v rest2 h1 h2 h3 h4 ih =>
    intro d
    obtain ⟨d2, hd⟩ := ih 1
    rcases h4 with h | h <;> subst h
    · rw [parse_loop_ddash_debug, parse_loop_ddash_debug]
      exact ⟨d2, hd⟩
    · rw [parse_loop_dash_d, parse_loop_dash_d]
      exact ⟨d2, hd⟩
  | case10 o v rest2 h1 h2 h3 h4 h5 =>
    intro d
    rcases h5 with h | h <;> subst h
    · rw [parse_loop_ddash_help, parse_loop_ddash_help]; exact ⟨0, rfl⟩
    · rw [parse_loop_dash_h, parse_loop_dash_h]; exact ⟨0, rfl⟩
  | case11 o v rest2 h1 h2 h3 h4 h5 h6 =>
    intro d
    rcases h6 with h | h <;> subst h
    · rw [parse_loop_ddash_version, parse_loop_ddash_version]; exact ⟨0, rfl⟩
    · rw [parse_loop_dash_v, parse_loop_dash_v]; exact ⟨0, rfl⟩
  | case12 o v rest2 h1 h2 h3 h4 h5 h6 =>
    intro d
    have hv : is_recognized_flag v = false := by
      simp only [is_recognized_flag, Bool.or_eq_false_iff,
        decide_eq_false_iff_not]
      push_neg at h1 h2 h3 h4 h5 h6
      exact ⟨⟨⟨⟨⟨⟨⟨⟨⟨⟨⟨h1.1, h1.2⟩, h2.1⟩, h2.2⟩, h3.1⟩, h3.2⟩, h4.1⟩, h4.2⟩,
        h5.1⟩, h5.2⟩, h6.1⟩, h6.2⟩
    rw [parse_loop_unrecognized _ _ _ hv, parse_loop_unrecognized _ _ _ hv]
    exact ⟨0, rfl⟩

theorem run_with_options_debug {Doc : Type} (lib : PlistLib Doc)
    (o : options_t) (b : Nat) (sb : List UInt8)
    (fs : String → Option (List UInt8)) (cw : String → Bool) (se : Bool) :
    run_with_options lib { o with debug := b } sb fs cw se =
      run_with_options lib o sb fs cw se := rfl

/-- Claim C9.  The `-d`/`--debug` flag only sets the `debug` options field, and
nothing after argument parsing reads that field: two runs on the same input
that differ only in the presence of `-d` (or `--debug`) produce the same
output, trace and exit status. -/
theorem debug_flag_no_effect :
    (∀ {Doc : Type} (lib : PlistLib Doc) (o : options_t) (b : Nat)
       (sb : List UInt8) (fs : String → Option (List UInt8))
       (cw : String → Bool) (se : Bool),
       run_with_options lib { o with debug := b } sb fs cw se =
         run_with_options lib o sb fs cw se) ∧
    (∀ (o : options_t) (rest : List String),
       parse_arguments_loop o ("-d" :: rest) =
         parse_arguments_loop { o with debug := 1 } rest ∧
       parse_arguments_loop o ("--debug" :: rest) =
         parse_arguments_loop { o with debug := 1 } rest) ∧
    (∀ {Doc : Type} (lib : PlistLib Doc) (rest : List String)
       (sb : List UInt8) (fs : String → Option (List UInt8))
       (cw : String → Bool) (se : Bool),
       plistutil_main lib ("-d" :: rest) sb fs cw se =
         plistutil_main lib rest sb fs cw se ∧
       plistutil_main lib ("--debug" :: rest) sb fs cw se =
         plistutil_main lib rest sb fs cw se) := by
  refine ⟨?_, ?_, ?_⟩
  · intro Doc lib o b sb fs cw se
    exact run_with_options_debug lib o b sb fs cw se
  · intro o rest
    exact ⟨parse_loop_dash_d o rest, parse_loop_ddash_debug o rest⟩
  · intro Doc lib rest sb fs cw se
    obtain ⟨d2, hd⟩ := parse_loop_debug options_init rest 1
    constructor
    · unfold plistutil_main parse_arguments
      rw [parse_loop_dash_d, hd]
      cases parse_arguments_loop options_init rest with
      | opts o2 => exact run_with_options_debug lib o2 d2 sb fs cw se
      | usage => rfl
      | version => rfl
    · unfold plistutil_main parse_arguments
      rw [parse_loop_ddash_debug, hd]
      cases parse_arguments_loop options_init rest with
      | opts o2 => exact run_with_options_debug lib o2 d2 sb fs cw se
      | usage => rfl
      | version => rfl

/-! ### Structure of the conversion stage -/

theorem convert_input_fail {Doc : Type} (lib : PlistLib Doc) (fmt : Nat)
    (data : List UInt8) (n : Nat)
    (h : (convert lib fmt data n).input_res ≠ PLIST_ERR_SUCCESS) :
    (convert lib fmt data n).output_res = PLIST_ERR_UNKNOWN ∧
    (convert lib fmt data n).plist_out = none ∧
    (convert lib fmt data n).trace.filter is_serialize_event = [] := by
  unfold convert at h ⊢
  split_ifs at h ⊢ <;> try simp_all [is_serialize_event]
  all_goals (split_ifs at h ⊢ <;> simp_all [is_serialize_event])

theorem convert_serialize_count {Doc : Type} (lib : PlistLib Doc) (fmt : Nat)
    (data : List UInt8) (n : Nat) (hfmt : fmt ≤ 3) :
    ((convert lib fmt data n).trace.filter is_serialize_event).length =
      if (convert lib fmt data n).input_res = PLIST_ERR_SUCCESS then 1
      else 0 := by
  unfold convert
  split_ifs <;> try simp_all [is_serialize_event]
  all_goals (split_ifs <;> simp_all [is_serialize_event]) <;> omega

theorem convert_no_isbinary {Doc : Type} (lib : PlistLib Doc) (fmt : Nat)
    (data : List UInt8) (n : Nat) (hfmt : fmt ≠ 0) :
    Event.evIsBinary ∉ (convert lib fmt data n).trace := by
  unfold convert
  split_ifs <;> try simp_all
  all_goals (split_ifs <;> simp_all)

/-! ### Structure of the output stage -/

theorem after_input_results {Doc : Type} (lib : PlistLib Doc) (o : options_t)
    (data : List UInt8) (n : Nat) (cw : String → Bool) (tr : List Event) :
    (after_input lib o data n cw tr).converted = true ∧
    (after_input lib o data n cw tr).input_res =
      (convert lib o.out_fmt data n).input_res ∧
    (after_input lib o data n cw tr).output_res =
      (convert lib o.out_fmt data n).output_res ∧
    (after_input lib o data n cw tr).plist_out =
      (convert lib o.out_fmt data n).plist_out := by
  unfold after_input
  rcases hp : (convert lib o.out_fmt data n).plist_out with _ | outb <;>
    rcases ho : o.out_file with _ | name <;>
      simp only [hp, ho] <;> (try split_ifs) <;> simp_all [finish]

theorem after_input_trace {Doc : Type} (lib : PlistLib Doc) (o : options_t)
    (data : List UInt8) (n : Nat) (cw : String → Bool) (tr : List Event) :
    ∃ w : List Event,
      (after_input lib o data n cw tr).trace =
        tr ++ (convert lib o.out_fmt data n).trace ++ w ∧
      ∀ e ∈ w, is_write_event e = true := by
  unfold after_input
  rcases hp : (convert lib o.out_fmt data n).plist_out with _ | outb <;>
    rcases ho : o.out_file with _ | name <;>
      simp only [hp, ho]
  · exact ⟨[], by simp [finish]⟩
  · exact ⟨[], by simp [finish]⟩
  · exact ⟨[Event.evWriteStdout], by simp [finish, is_write_event]⟩
  · split_ifs with h1 h2
    · exact ⟨[Event.evWriteStdout], by simp [finish, is_write_event]⟩
    · exact ⟨[Event.evWriteFile name], by simp [finish, is_write_event]⟩
    · exact ⟨[], by simp⟩

theorem after_input_exit {Doc : Type} (lib : PlistLib Doc) (o : options_t)
    (data : List UInt8) (n : Nat) (cw : String → Bool) (tr : List Event)
    (hw : ∀ name, o.out_file = some name → name = "-" ∨ cw name = true) :
    (after_input lib o data n cw tr).exitc =
      outcome_exit (convert lib o.out_fmt data n).input_res
        (convert lib o.out_fmt data n).output_res := by
  unfold after_input
  rcases hp : (convert lib o.out_fmt data n).plist_out with _ | outb <;>
    rcases ho : o.out_file with _ | name <;>
      simp only [hp, ho]
  · simp [finish]
  · simp [finish]
  · simp [finish]
  · split_ifs with h1 h2
    · simp [finish]
    · simp [finish]
    · rcases hw name ho with h | h
      · exact absurd h h1
      · exact absurd h (by simp [h2])

theorem write_event_facts (e : Event) (h : is_write_event e = true) :
    is_serialize_event e = false ∧ is_parse_event e = false ∧
    e ≠ Event.evIsBinary := by
  cases e <;> simp_all [is_write_event, is_serialize_event, is_parse_event]

theorem convert_no_write {Doc : Type} (lib : PlistLib Doc) (fmt : Nat)
    (data : List UInt8) (n : Nat) :
    (convert lib fmt data n).trace.filter is_write_event = [] := by
  unfold convert
  split_ifs <;> try simp_all [is_write_event]
  all_goals (split_ifs <;> simp_all [is_write_event])

theorem fmt_code_le (s : String) (n : Nat) (h : fmt_code s = some n) :
    n ≤ 3 := by
  unfold fmt_code at h
  split_ifs at h <;> simp_all <;> omega

theorem parse_loop_out_fmt (o : options_t) (args : List String) :
    ∀ o2, parse_arguments_loop o args = ParseResult.opts o2 →
      o2.out_fmt = o.out_fmt ∨ o2.out_fmt ≤ 3 := by
  induction o, args using parse_arguments_loop.induct with
  | case1 o =>
    intro o2 he
    rw [show parse_arguments_loop o [] = ParseResult.opts o from rfl] at he
    injection he with h2
    subst h2
    exact Or.inl rfl
  | case2 o v h1 =>
    intro o2 he
    rcases h1 with h | h <;> subst h <;> simp [parse_arguments_loop] at he
  | case3 o v h1 w rest2 ih =>
    intro o2 he
    rcases h1 with h | h <;> subst h <;>
      simp only [parse_arguments_loop] at he <;>
      simp at he <;>
      rcases ih o2 he with h2 | h2 <;> simp_all
  | case4 o v h1 h2 =>
    intro o2 he
    rcases h2 with h | h <;> subst h <;> simp [parse_arguments_loop] at he
  | case5 o v h1 h2 w rest2 ih =>
    intro o2 he
    rcases h2 with h | h <;> subst h <;>
      simp only [parse_arguments_loop] at he <;>
      simp at he <;>
      rcases ih o2 he with h3 | h3 <;> simp_all
  | case6 o v h1 h2 h3 =>
    intro o2 he
    rcases h3 with h | h <;> subst h <;> simp [parse_arguments_loop] at he
  | case7 o v h1 h2 h3 w rest2 n hn ih =>
    intro o2 he
    have hn3 : n ≤ 3 := fmt_code_le w n hn
    rcases h3 with h | h <;> subst h <;>
      simp only [parse_arguments_loop] at he <;>
      rw [hn] at he <;>
      rcases ih o2 he with h4 | h4 <;> simp_all
  | case8 o v h1 h2 h3 w rest2 hn =>
    intro o2 he
    rcases h3 with h | h <;> subst h <;>
      simp only [parse_arguments_loop] at he <;>
      rw [hn] at he <;> simp at he
  | case9 o v rest2 h1 h2 h3 h4 ih =>
    intro o2 he
    rcases h4 with h | h <;> subst h
    · rw [parse_loop_ddash_debug] at he
      rcases ih o2 he with h5 | h5 <;> simp_all
    · rw [parse_loop_dash_d] at he
      rcases ih o2 he with h5 | h5 <;> simp_all
  | case10 o v rest2 h1 h2 h3 h4 h5 =>
    intro o2 he
    rcases h5 with h | h <;> subst h <;>
      simp [parse_loop_dash_h, parse_loop_ddash_help] at he
  | case11 o v rest2 h1 h2 h3 h4 h5 h6 =>
    intro o2 he
    rcases h6 with h | h <;> subst h <;>
      simp [parse_loop_dash_v, parse_loop_ddash_version] at he
  | case12 o v rest2 h1 h2 h3 h4 h5 h6 =>
    intro o2 he
    have hv : is_recognized_flag v = false := by
      simp only [is_recognized_flag, Bool.or_eq_false_iff,
        decide_eq_false_iff_not]
      push_neg at h1 h2 h3 h4 h5 h6
      exact ⟨⟨⟨⟨⟨⟨⟨⟨⟨⟨⟨h1.1, h1.2⟩, h2.1⟩, h2.2⟩, h3.1⟩, h3.2⟩, h4.1⟩, h4.2⟩,
        h5.1⟩, h5.2⟩, h6.1⟩, h6.2⟩
    rw [parse_loop_unrecognized _ _ _ hv] at he
    simp at he

/-! ### Shape of a whole run -/

theorem run_with_options_shape {Doc : Type} (lib : PlistLib Doc)
    (o : options_t) (sb : List UInt8) (fs : String → Option (List UInt8))
    (cw : String → Bool) (se : Bool) :
    (run_with_options lib o sb fs cw se = early_exit 1 [Event.evReadStdin]) ∨
    (∃ name, run_with_options lib o sb fs cw se =
      early_exit 1 [Event.evOpenInput name]) ∨
    (∃ name, run_with_options lib o sb fs cw se =
      early_exit (-1) [Event.evOpenInput name]) ∨
    (∃ data n tr,
      run_with_options lib o sb fs cw se = after_input lib o data n cw tr ∧
      (tr = [Event.evReadStdin] ∨ ∃ name, tr = [Event.evOpenInput name])) := by
  unfold run_with_options
  rcases hif : o.in_file with _ | name <;> simp only [hif]
  · split_ifs
    · exact Or.inl rfl
    · exact Or.inl rfl
    · exact Or.inr (Or.inr (Or.inr ⟨_, _, _, rfl, Or.inl rfl⟩))
  · by_cases h1 : name = "-"
    · simp only [if_pos h1]
      split_ifs
      · exact Or.inl rfl
      · exact Or.inl rfl
      · exact Or.inr (Or.inr (Or.inr ⟨_, _, _, rfl, Or.inl rfl⟩))
    · simp only [if_neg h1]
      rcases hfs : fs name with _ | content <;> simp only [hfs]
      · exact Or.inr (Or.inl ⟨name, rfl⟩)
      · split_ifs
        · exact Or.inr (Or.inr (Or.inl ⟨name, rfl⟩))
        · exact Or.inr (Or.inr (Or.inr
            ⟨_, _, _, rfl, Or.inr ⟨name, rfl⟩⟩))

/-! ### Claim C1: the outcome table determines the exit status -/

/-- Claim C1 (amended).  For every run that reaches conversion *and whose output
destination, when it is a named file, can be opened*, the exit status is
determined by the pair (InputResult, OutputResult) exactly as the outcome
table states: parse failure → 1; both success → 0; success +
format-mismatch → 2; success + any other serialize failure → 1.  (When the
named output file cannot be opened the tool instead exits 1 regardless of the
pair — see the counterexample.) -/
theorem exit_status_outcome_table {Doc : Type} (lib : PlistLib Doc)
    (o : options_t) (sb : List UInt8) (fs : String → Option (List UInt8))
    (cw : String → Bool) (se : Bool) (r : RunResult)
    (hr : r = run_with_options lib o sb fs cw se)
    (hw : ∀ name, o.out_file = some name → name = "-" ∨ cw name = true)
    (hc : r.converted = true) :
    (r.input_res ≠ PLIST_ERR_SUCCESS → r.exitc = 1) ∧
    (r.input_res = PLIST_ERR_SUCCESS → r.output_res = PLIST_ERR_SUCCESS →
      r.exitc = 0) ∧
    (r.input_res = PLIST_ERR_SUCCESS → r.output_res = PLIST_ERR_FORMAT →
      r.exitc = 2) ∧
    (r.input_res = PLIST_ERR_SUCCESS → r.output_res ≠ PLIST_ERR_SUCCESS →
      r.output_res ≠ PLIST_ERR_FORMAT → r.exitc = 1) := by
  subst hr
  rcases run_with_options_shape lib o sb fs cw se with
    h | ⟨name, h⟩ | ⟨name, h⟩ | ⟨data, n, tr, h, -⟩
  · rw [h] at hc; simp [early_exit] at hc
  · rw [h] at hc; simp [early_exit] at hc
  · rw [h] at hc; simp [early_exit] at hc
  · rw [h]
    have hres := after_input_results lib o data n cw tr
    rw [after_input_exit lib o data n cw tr hw, hres.2.1, hres.2.2.1]
    refine ⟨fun h1 => ?_, fun h1 h2 => ?_, fun h1 h2 => ?_,
      fun h1 h2 h3 => ?_⟩
    · simp [outcome_exit, h1]
    · simp [outcome_exit, h1, h2, PLIST_ERR_SUCCESS]
    · norm_num [outcome_exit, h1, h2, PLIST_ERR_SUCCESS, PLIST_ERR_FORMAT]
    · simp [outcome_exit, h1, h2, h3]

/-- Claim C1 (witness).  A fully successful stdin-to-stdout run exits 0. -/
theorem exit_status_outcome_table_witness :
    (run_with_options okLib options_init stdin8 noReadFs allWriteFs
      false).exitc = 0 :=
  ((exit_status_outcome_table okLib options_init stdin8 noReadFs allWriteFs
      false _ rfl (fun name h => by simp [options_init] at h)
      (by decide)).2.1) (by decide) (by decide)

/-- Claim C1 (counterexample to the claim as stated).  A run whose conversion
fully succeeds (InputResult = OutputResult = Success) but whose `-o` file
cannot be opened exits 1, not the 0 the outcome table prescribes. -/
theorem exit_status_outcome_table_counterexample :
    (plistutil_main okLib ["-o", "out"] stdin8 noReadFs noWriteFs
        false).converted = true ∧
    (plistutil_main okLib ["-o", "out"] stdin8 noReadFs noWriteFs
        false).input_res = PLIST_ERR_SUCCESS ∧
    (plistutil_main okLib ["-o", "out"] stdin8 noReadFs noWriteFs
        false).output_res = PLIST_ERR_SUCCESS ∧
    (plistutil_main okLib ["-o", "out"] stdin8 noReadFs noWriteFs
        false).exitc = 1 ∧
    (plistutil_main okLib ["-o", "out"] stdin8 noReadFs noWriteFs
        false).exitc ≠ 0 := by
  refine ⟨?_, ?_, ?_, ?_, ?_⟩ <;> decide

/-! ### Claim C5: serialization only after successful parsing -/

/-- Claim C5.  In every run (auto mode or forced-format mode alike), if parsing
did not succeed then no serialize operation is invoked, `output_res` keeps
its `PLIST_ERR_UNKNOWN` "not attempted" sentinel, and no rendered payload is
produced. -/
theorem serialize_only_after_parse {Doc : Type} (lib : PlistLib Doc)
    (o : options_t) (sb : List UInt8) (fs : String → Option (List UInt8))
    (cw : String → Bool) (se : Bool)
    (h : (run_with_options lib o sb fs cw se).input_res ≠
      PLIST_ERR_SUCCESS) :
    (run_with_options lib o sb fs cw se).output_res = PLIST_ERR_UNKNOWN ∧
    (run_with_options lib o sb fs cw se).plist_out = none ∧
    (run_with_options lib o sb fs cw se).trace.filter is_serialize_event =
      [] := by
  rcases run_with_options_shape lib o sb fs cw se with
    hsh | ⟨name, hsh⟩ | ⟨name, hsh⟩ | ⟨data, n, tr, hsh, htr⟩
  · rw [hsh]; simp [early_exit, is_serialize_event]
  · rw [hsh]; simp [early_exit, is_serialize_event]
  · rw [hsh]; simp [early_exit, is_serialize_event]
  · rw [hsh] at h ⊢
    have hres := after_input_results lib o data n cw tr
    rw [hres.2.1] at h
    have hconv := convert_input_fail lib o.out_fmt data n h
    obtain ⟨w, hwt, hwall⟩ := after_input_trace lib o data n cw tr
    refine ⟨?_, ?_, ?_⟩
    · rw [hres.2.2.1, hconv.1]
    · rw [hres.2.2.2, hconv.2.1]
    · rw [hwt]
      have hwf : w.filter is_serialize_event = [] := by
        rw [List.filter_eq_nil_iff]
        intro e he
        simp [(write_event_facts e (hwall e he)).1]
      rcases htr with h1 | ⟨name, h1⟩ <;> subst h1 <;>
        simp [List.filter_append, hconv.2.2, hwf, is_serialize_event]

/-- Claim C5 (witness).  With a library whose parses all fail, the run keeps
the "not attempted" sentinel, produces nothing and serializes nothing. -/
theorem serialize_only_after_parse_witness :
    (run_with_options parseFailLib options_init stdin8 noReadFs allWriteFs
        false).output_res = PLIST_ERR_UNKNOWN ∧
    (run_with_options parseFailLib options_init stdin8 noReadFs allWriteFs
        false).plist_out = none ∧
    (run_with_options parseFailLib options_init stdin8 noReadFs allWriteFs
        false).trace.filter is_serialize_event = [] :=
  serialize_only_after_parse parseFailLib options_init stdin8 noReadFs
    allWriteFs false (by decide)

/-! ### Claim C6: number of serialize operations per run -/

/-- Claim C6 (amended).  A run invokes *at most* one of the three serialize
operations; it invokes exactly one precisely when it reaches the conversion
stage and parsing succeeds (when parsing fails the serialize stage is
skipped entirely, so zero serialize operations are invoked). -/
theorem one_serialize_per_run {Doc : Type} (lib : PlistLib Doc)
    (args : List String) (sb : List UInt8)
    (fs : String → Option (List UInt8)) (cw : String → Bool) (se : Bool)
    (r : RunResult) (hr : r = plistutil_main lib args sb fs cw se) :
    (r.trace.filter is_serialize_event).length =
      if r.converted = true ∧ r.input_res = PLIST_ERR_SUCCESS then 1
      else 0 := by
  subst hr
  unfold plistutil_main
  rcases hpa : parse_arguments args with o | _ | _ <;> simp only [hpa]
  case _ =>
    have hfmt : o.out_fmt ≤ 3 := by
      rcases parse_loop_out_fmt options_init args o hpa with h | h
      · rw [h]; simp [options_init]
      · exact h
    rcases run_with_options_shape lib o sb fs cw se with
      hsh | ⟨nm, hsh⟩ | ⟨nm, hsh⟩ | ⟨data, n, tr, hsh, htr⟩
    · simp only [hsh]; simp [early_exit, is_serialize_event]
    · simp only [hsh]; simp [early_exit, is_serialize_event]
    · simp only [hsh]; simp [early_exit, is_serialize_event]
    · simp only [hsh]
      have hres := after_input_results lib o data n cw tr
      obtain ⟨w, hwt, hwall⟩ := after_input_trace lib o data n cw tr
      have hwf : w.filter is_serialize_event = [] := by
        rw [List.filter_eq_nil_iff]
        intro e he
        simp [(write_event_facts e (hwall e he)).1]
      have htf : tr.filter is_serialize_event = [] := by
        rcases htr with h1 | ⟨nm2, h1⟩ <;> subst h1 <;>
          simp [is_serialize_event]
      simp only [hwt, hres.1, hres.2.1]
      simp only [List.filter_append, htf, hwf, List.nil_append,
        List.append_nil]
      rw [convert_serialize_count lib o.out_fmt data n hfmt]
      simp
  case _ => simp
  case _ => simp

/-- Claim C6 (witness).  A successful auto-mode run serializes exactly once. -/
theorem one_serialize_per_run_witness :
    ((plistutil_main okLib ([] : List String) stdin8 noReadFs allWriteFs
        false).trace.filter is_serialize_event).length = 1 := by
  rw [one_serialize_per_run okLib [] stdin8 noReadFs allWriteFs false _ rfl]
  decide

/-- Claim C6 (counterexample to the claim as stated).  A run that reaches the
conversion stage but whose parse fails invokes *zero* serialize operations,
not exactly one. -/
theorem one_serialize_per_run_counterexample :
    (plistutil_main parseFailLib ([] : List String) stdin8 noReadFs
        allWriteFs false).converted = true ∧
    ((plistutil_main parseFailLib ([] : List String) stdin8 noReadFs
        allWriteFs false).trace.filter is_serialize_event).length ≠ 1 := by
  refine ⟨?_, ?_⟩ <;> decide

/-! ### Claim C3: auto-mode dispatch -/

/-- Claim C3.  In auto mode (`out_fmt = 0`) the dispatcher first runs the
binary-format detector on the payload; if it reports binary the payload is
parsed with the binary parser and, on success, serialized to XML; otherwise
it is parsed with the XML parser and, on success, serialized to binary; and
the detector is invoked in no run whose output format is forced. -/
theorem auto_mode_dispatch :
    (∀ {Doc : Type} (lib : PlistLib Doc) (data : List UInt8) (n : Nat),
      (convert lib 0 data n).trace.head? = some Event.evIsBinary) ∧
    (∀ {Doc : Type} (lib : PlistLib Doc) (data : List UInt8) (n : Nat),
      lib.is_binary data n = true →
        (convert lib 0 data n).input_res = (lib.from_bin data n).1 ∧
        Event.evFromBin ∈ (convert lib 0 data n).trace ∧
        Event.evFromXml ∉ (convert lib 0 data n).trace ∧
        Event.evFromMemory ∉ (convert lib 0 data n).trace ∧
        Event.evToBin ∉ (convert lib 0 data n).trace ∧
        Event.evToJson ∉ (convert lib 0 data n).trace ∧
        ((lib.from_bin data n).1 = PLIST_ERR_SUCCESS →
          Event.evToXml ∈ (convert lib 0 data n).trace ∧
          (convert lib 0 data n).output_res =
            (lib.to_xml (lib.from_bin data n).2).1 ∧
          (convert lib 0 data n).plist_out =
            (lib.to_xml (lib.from_bin data n).2).2)) ∧
    (∀ {Doc : Type} (lib : PlistLib Doc) (data : List UInt8) (n : Nat),
      lib.is_binary data n = false →
        (convert lib 0 data n).input_res = (lib.from_xml data n).1 ∧
        Event.evFromXml ∈ (convert lib 0 data n).trace ∧
        Event.evFromBin ∉ (convert lib 0 data n).trace ∧
        Event.evFromMemory ∉ (convert lib 0 data n).trace ∧
        Event.evToXml ∉ (convert lib 0 data n).trace ∧
        Event.evToJson ∉ (convert lib 0 data n).trace ∧
        ((lib.from_xml data n).1 = PLIST_ERR_SUCCESS →
          Event.evToBin ∈ (convert lib 0 data n).trace ∧
          (convert lib 0 data n).output_res =
            (lib.to_bin (lib.from_xml data n).2).1 ∧
          (convert lib 0 data n).plist_out =
            (lib.to_bin (lib.from_xml data n).2).2)) ∧
    (∀ {Doc : Type} (lib : PlistLib Doc) (o : options_t) (sb : List UInt8)
      (fs : String → Option (List UInt8)) (cw : String → Bool) (se : Bool),
      o.out_fmt ≠ 0 →
        Event.evIsBinary ∉ (run_with_options lib o sb fs cw se).trace) := by
  refine ⟨?_, ?_, ?_, ?_⟩
  · intro Doc lib data n
    unfold convert
    split_ifs <;> try simp_all
    all_goals (split_ifs <;> simp_all)
  · intro Doc lib data n hbin
    unfold convert
    simp only [hbin]
    split_ifs with h0 hp <;> simp_all [PLIST_ERR_SUCCESS]
  · intro Doc lib data n hbin
    unfold convert
    simp only [hbin]
    split_ifs with h0 hp <;> simp_all [PLIST_ERR_SUCCESS]
  · intro Doc lib o sb fs cw se hfmt
    rcases run_with_options_shape lib o sb fs cw se with
      hsh | ⟨nm, hsh⟩ | ⟨nm, hsh⟩ | ⟨data, n, tr, hsh, htr⟩
    · rw [hsh]; simp [early_exit]
    · rw [hsh]; simp [early_exit]
    · rw [hsh]; simp [early_exit]
    · rw [hsh]
      obtain ⟨w, hwt, hwall⟩ := after_input_trace lib o data n cw tr
      have h1 := convert_no_isbinary lib o.out_fmt data n hfmt
      have h2 : Event.evIsBinary ∉ w := fun hm =>
        (write_event_facts _ (hwall _ hm)).2.2 rfl
      have h3 : Event.evIsBinary ∉ tr := by
        rcases htr with h | ⟨nm, h⟩ <;> subst h <;> simp
      simp [hwt, List.mem_append, h1, h2, h3]

/-- Claim C3 (witness).  Concrete auto-mode and forced-mode runs. -/
theorem auto_mode_dispatch_witness :
    Event.evFromBin ∈ (convert okLib 0 stdin8 8).trace ∧
    Event.evFromXml ∈ (convert parseFailLib 0 stdin8 8).trace ∧
    Event.evIsBinary ∉
      (run_with_options okLib { options_init with out_fmt := 3 } stdin8
        noReadFs allWriteFs false).trace :=
  ⟨(auto_mode_dispatch.2.1 okLib stdin8 8 (by decide)).2.1,
   (auto_mode_dispatch.2.2.1 parseFailLib stdin8 8 (by decide)).2.1,
   auto_mode_dispatch.2.2.2 okLib { options_init with out_fmt := 3 } stdin8
     noReadFs allWriteFs false (by decide)⟩

/-! ### Claim C8: the output writer -/

theorem after_input_written {Doc : Type} (lib : PlistLib Doc)
    (o : options_t) (data : List UInt8) (n : Nat) (cw : String → Bool)
    (tr : List Event) (htr : tr.filter is_write_event = []) :
    ((convert lib o.out_fmt data n).plist_out = none →
      (after_input lib o data n cw tr).written = none ∧
      (after_input lib o data n cw tr).trace.filter is_write_event = []) ∧
    (∀ b, (convert lib o.out_fmt data n).plist_out = some b →
      ((o.out_file = none ∨ o.out_file = some "-") →
        (after_input lib o data n cw tr).written =
          some (OutDest.standard, b)) ∧
      (∀ name, o.out_file = some name → name ≠ "-" → cw name = true →
        (after_input lib o data n cw tr).written =
          some (OutDest.file name, b)) ∧
      (∀ name, o.out_file = some name → name ≠ "-" → cw name = false →
        (after_input lib o data n cw tr).written = none ∧
        (after_input lib o data n cw tr).exitc = 1)) := by
  unfold after_input
  rcases hp : (convert lib o.out_fmt data n).plist_out with _ | outb <;>
    rcases ho : o.out_file with _ | name <;> simp only [hp, ho]
  · constructor
    · intro _
      refine ⟨rfl, ?_⟩
      simp [finish, List.filter_append, htr, convert_no_write]
    · intro b hb; simp at hb
  · constructor
    · intro _
      refine ⟨rfl, ?_⟩
      simp [finish, List.filter_append, htr, convert_no_write]
    · intro b hb; simp at hb
  · constructor
    · intro h; simp at h
    · intro b hb
      injection hb with hb2
      subst hb2
      refine ⟨fun _ => by simp [finish], ?_, ?_⟩
      · intro name hnm; simp at hnm
      · intro name hnm; simp at hnm
  · constructor
    · intro h; simp at h
    · intro b hb
      injection hb with hb2
      subst hb2
      refine ⟨?_, ?_, ?_⟩
      · intro hcase
        rcases hcase with h | h
        · simp at h
        · injection h with h2
          subst h2
          simp [finish]
      · intro nm hnm hne hcw
        injection hnm with h2
        subst h2
        rw [if_neg hne]
        simp [finish, hcw]
      · intro nm hnm hne hcw
        injection hnm with h2
        subst h2
        rw [if_neg hne]
        simp [finish, hcw]

/-- Claim C8 (amended).  The Output Writer performs no I/O when no rendered
payload exists; when one exists it writes exactly the serialized payload's
bytes, unmodified and unframed, to standard output (when no output file, or
`-`, is given) or to the named file *when that file can be opened*; when the
named file cannot be opened, nothing is written and the run fails
immediately with exit status 1. -/
theorem output_writer_spec {Doc : Type} (lib : PlistLib Doc)
    (o : options_t) (sb : List UInt8) (fs : String → Option (List UInt8))
    (cw : String → Bool) (se : Bool) (r : RunResult)
    (hr : r = run_with_options lib o sb fs cw se) :
    (r.plist_out = none → r.written = none ∧
      r.trace.filter is_write_event = []) ∧
    (∀ b, r.plist_out = some b →
      ((o.out_file = none ∨ o.out_file = some "-") →
        r.written = some (OutDest.standard, b)) ∧
      (∀ name, o.out_file = some name → name ≠ "-" → cw name = true →
        r.written = some (OutDest.file name, b)) ∧
      (∀ name, o.out_file = some name → name ≠ "-" → cw name = false →
        r.written = none ∧ r.exitc = 1)) := by
  subst hr
  rcases run_with_options_shape lib o sb fs cw se with
    hsh | ⟨nm, hsh⟩ | ⟨nm, hsh⟩ | ⟨data, n, tr, hsh, htr⟩
  · rw [hsh]
    exact ⟨fun _ => ⟨rfl, by simp [early_exit, is_write_event]⟩,
      fun b hb => by simp [early_exit] at hb⟩
  · rw [hsh]
    exact ⟨fun _ => ⟨rfl, by simp [early_exit, is_write_event]⟩,
      fun b hb => by simp [early_exit] at hb⟩
  · rw [hsh]
    exact ⟨fun _ => ⟨rfl, by simp [early_exit, is_write_event]⟩,
      fun b hb => by simp [early_exit] at hb⟩
  · rw [hsh]
    have htrw : tr.filter is_write_event = [] := by
      rcases htr with h | ⟨nm, h⟩ <;> subst h <;> simp [is_write_event]
    have hres := after_input_results lib o data n cw tr
    have hafter := after_input_written lib o data n cw tr htrw
    constructor
    · intro h0
      rw [hres.2.2.2] at h0
      exact hafter.1 h0
    · intro b hb
      rw [hres.2.2.2] at hb
      exact hafter.2 b hb

/-- Claim C8 (witness).  A successful stdin-to-stdout run writes exactly the
rendered bytes to standard output. -/
theorem output_writer_spec_witness :
    (run_with_options okLib options_init stdin8 noReadFs allWriteFs
        false).written = some (OutDest.standard, [60]) :=
  ((output_writer_spec okLib options_init stdin8 noReadFs allWriteFs false _
      rfl).2 [60] (by decide)).1 (Or.inl rfl)

/-- Claim C8 (counterexample to the claim as stated).  When the rendered
payload exists but the named output file cannot be opened, nothing at all is
written — the payload's bytes do not reach any destination. -/
theorem output_writer_spec_counterexample :
    (plistutil_main okLib ["-o", "out"] stdin8 noReadFs noWriteFs
        false).plist_out = some [60] ∧
    (plistutil_main okLib ["-o", "out"] stdin8 noReadFs noWriteFs
        false).written = none := by
  refine ⟨?_, ?_⟩ <;> decide

/-! ### Claim C2: inputs shorter than 8 bytes -/

/-- Claim C2 (amended).  Input shorter than 8 bytes is rejected before any
parse operation is attempted, for both sources; the standard-stream source
exits with status 1, while the named-file source returns -1 (a nonzero
failure status, but not the 1 the claim states). -/
theorem short_input_rejected {Doc : Type} (lib : PlistLib Doc)
    (o : options_t) (sb : List UInt8) (fs : String → Option (List UInt8))
    (cw : String → Bool) (se : Bool) :
    ((o.in_file = none ∨ o.in_file = some "-") → sb.length < 8 →
      (run_with_options lib o sb fs cw se).exitc = 1 ∧
      (run_with_options lib o sb fs cw se).converted = false ∧
      (run_with_options lib o sb fs cw se).trace.filter is_parse_event =
        []) ∧
    (∀ name content, o.in_file = some name → name ≠ "-" →
      fs name = some content → content.length < 8 →
      (run_with_options lib o sb fs cw se).exitc = -1 ∧
      (run_with_options lib o sb fs cw se).converted = false ∧
      (run_with_options lib o sb fs cw se).trace.filter is_parse_event =
        []) := by
  constructor
  · intro hin hlen
    have hsz : (read_stdin sb).read_size = sb.length := by
      rw [read_stdin_spec]
    rcases hin with h | h <;>
      simp only [run_with_options, h] <;>
      split_ifs <;>
      simp_all [early_exit, is_parse_event]
  · intro name content hname hne hfs hlen
    simp only [run_with_options, hname]
    rw [if_neg hne]
    simp only [hfs]
    rw [if_pos hlen]
    simp [early_exit, is_parse_event]

/-- Claim C2 (witness).  A 3-byte standard stream is rejected with exit 1 and
no parse call. -/
theorem short_input_rejected_witness :
    (run_with_options okLib options_init [0, 0, 0] noReadFs allWriteFs
        false).exitc = 1 :=
  ((short_input_rejected okLib options_init [0, 0, 0] noReadFs allWriteFs
      false).1 (Or.inl rfl) (by decide)).1

/-- Claim C2 (counterexample to the claim as stated).  A 2-byte named input
file makes the tool return -1, not the claimed exit status 1. -/
theorem short_input_rejected_counterexample :
    (plistutil_main okLib ["-i", "f"] stdin8 (fun _ => some [97, 98])
        allWriteFs false).exitc = -1 ∧
    (plistutil_main okLib ["-i", "f"] stdin8 (fun _ => some [97, 98])
        allWriteFs false).exitc ≠ 1 := by
  refine ⟨?_, ?_⟩ <;> decide

/-! ### Claim C4: malformed invocations print usage and exit 0 -/

/-- Claim C4.  A missing argument to `-i`/`-o`/`-f`, an unrecognized flag, an
unrecognized `-f` format value, and `-h`/`--help` all make `parse_arguments`
return NULL, upon which `main` prints the usage text and exits 0 with no
conversion, read, parse or write attempted. -/
theorem usage_exit_zero :
    (∀ o : options_t,
      parse_arguments_loop o ["-i"] = ParseResult.usage ∧
      parse_arguments_loop o ["--infile"] = ParseResult.usage ∧
      parse_arguments_loop o ["-o"] = ParseResult.usage ∧
      parse_arguments_loop o ["--outfile"] = ParseResult.usage ∧
      parse_arguments_loop o ["-f"] = ParseResult.usage ∧
      parse_arguments_loop o ["--format"] = ParseResult.usage) ∧
    (∀ (o : options_t) (v : String) (rest : List String),
      fmt_code v = none →
      parse_arguments_loop o ("-f" :: v :: rest) = ParseResult.usage ∧
      parse_arguments_loop o ("--format" :: v :: rest) =
        ParseResult.usage) ∧
    (∀ (o : options_t) (rest : List String),
      parse_arguments_loop o ("-h" :: rest) = ParseResult.usage ∧
      parse_arguments_loop o ("--help" :: rest) = ParseResult.usage) ∧
    (∀ (o : options_t) (s : String) (rest : List String),
      is_recognized_flag s = false →
      parse_arguments_loop o (s :: rest) = ParseResult.usage) ∧
    (∀ {Doc : Type} (lib : PlistLib Doc) (args : List String)
      (sb : List UInt8) (fs : String → Option (List UInt8))
      (cw : String → Bool) (se : Bool),
      parse_arguments args = ParseResult.usage →
      (plistutil_main lib args sb fs cw se).exitc = 0 ∧
      (plistutil_main lib args sb fs cw se).usage_printed = true ∧
      (plistutil_main lib args sb fs cw se).converted = false ∧
      (plistutil_main lib args sb fs cw se).written = none ∧
      (plistutil_main lib args sb fs cw se).trace = []) := by
  refine ⟨?_, ?_, ?_, ?_, ?_⟩
  · intro o
    refine ⟨?_, ?_, ?_, ?_, ?_, ?_⟩ <;> simp [parse_arguments_loop]
  · intro o v rest h
    exact ⟨by simp [parse_arguments_loop, h],
      by simp [parse_arguments_loop, h]⟩
  · intro o rest
    exact ⟨parse_loop_dash_h o rest, parse_loop_ddash_help o rest⟩
  · intro o s rest h
    exact parse_loop_unrecognized o s rest h
  · intro Doc lib args sb fs cw se h
    unfold plistutil_main
    rw [h]
    exact ⟨rfl, rfl, rfl, rfl, rfl⟩

/-- Claim C4 (witness).  `-f bogus` (an unrecognized format value) yields the
usage result: exit 0, usage printed, nothing attempted. -/
theorem usage_exit_zero_witness :
    parse_arguments ["-f", "bogus"] = ParseResult.usage ∧
    (plistutil_main okLib ["-f", "bogus"] stdin8 noReadFs allWriteFs
        false).exitc = 0 ∧
    (plistutil_main okLib ["-f", "bogus"] stdin8 noReadFs allWriteFs
        false).usage_printed = true ∧
    (plistutil_main okLib ["-f", "bogus"] stdin8 noReadFs allWriteFs
        false).trace = [] := by
  have h1 : parse_arguments ["-f", "bogus"] = ParseResult.usage := by decide
  have h2 := usage_exit_zero.2.2.2.2 okLib ["-f", "bogus"] stdin8 noReadFs
    allWriteFs false h1
  exact ⟨h1, h2.1, h2.2.1, h2.2.2.2.2⟩

end Plistutil
